import Mathlib

/-!
Shallow embedding of the viewport-adaptive colour-scale engine of `src/app.py`
(a Dash choropleth application).

Modelling conventions:
* Python floats are modelled as `ℚ` (every IEEE float value is a rational); the
  single transcendental expression `2 ** (-0.2 * zoom)` (line 274) is modelled
  over `ℝ` with real exponentiation, so the definitions touching it are
  `noncomputable`.
* Feature geometries are modelled by their axis-aligned bounding boxes, and the
  viewport polygon `Polygon(coords)` by the bounding box of its vertex list:
  the map never sets a bearing, so the `mapbox._derived` viewport rings are
  axis-aligned rectangles, for which shapely's `intersects` coincides with
  closed box overlap.
* `dcc.Store` components and checklist values are fields of `AppState`;
  `dash.no_update` outputs are modelled as `none` in `LockOut`.
* Python exceptions inside the `try:` of `lock_or_reset_callback` are modelled
  by `Option`: `lockTryBody … = none` means the try-block raised (and the
  `except` clause runs).  The places where the real code can raise are made
  explicit: `Polygon` on fewer than 3 points, `ZeroDivisionError` when
  `zoom + 0.5 == 0`, and `TypeError` when the center lat/lon are missing.
-/

/-- The `"mapbox.center"` dictionary of a relayout payload; either coordinate
key may be absent (`center.get("lat")` / `center.get("lon")`). -/
structure CenterDict where
  lat : Option ℚ
  lon : Option ℚ
deriving DecidableEq

/-- A `relayoutData` payload as read by the callbacks: the flat
`"mapbox.center.lon"` / `"mapbox.center.lat"` keys, the `"mapbox.center"`
dictionary, `"mapbox.zoom"`, and the `"mapbox._derived"` viewport ring. -/
structure Relayout where
  centerFlatLon : Option ℚ
  centerFlatLat : Option ℚ
  centerDict : Option CenterDict
  zoom : Option ℚ
  derivedCoords : Option (List (ℚ × ℚ))
deriving DecidableEq

/-- An axis-aligned box with rational corners, as produced by shapely's
`box(minx, miny, maxx, maxy)` with lon = x and lat = y. -/
structure BBox where
  lonMin : ℚ
  latMin : ℚ
  lonMax : ℚ
  latMax : ℚ
deriving DecidableEq

/-- Closed box overlap: shapely's `intersects` (boundary touching counts). -/
def BBox.intersects (a b : BBox) : Bool :=
  decide (a.lonMin ≤ b.lonMax ∧ b.lonMin ≤ a.lonMax ∧
          a.latMin ≤ b.latMax ∧ b.latMin ≤ a.latMax)

/-- An axis-aligned box with real corners (the dynamic-mode fallback box whose
half-width comes from the transcendental buffer of line 274). -/
structure RBox where
  lonMin : ℝ
  latMin : ℝ
  lonMax : ℝ
  latMax : ℝ

/-- Closed overlap between a rational feature box and a real viewport box. -/
noncomputable def BBox.intersectsR (g : BBox) (b : RBox) : Bool :=
  decide ((g.lonMin : ℝ) ≤ b.lonMax ∧ b.lonMin ≤ (g.lonMax : ℝ) ∧
          (g.latMin : ℝ) ≤ b.latMax ∧ b.latMin ≤ (g.latMax : ℝ))

/-- One row of the GeoDataFrame `gdf`: the string `ID` column, the geometry
(modelled by its bounding box) and the numeric attribute columns. -/
structure Feature where
  id : String
  geom : BBox
  attrs : List (String × ℚ)
deriving DecidableEq

/-- Column access `row[var]` for one feature. -/
def Feature.attr (f : Feature) (v : String) : ℚ :=
  (f.attrs.lookup v).getD 0

/-- `ddf[var].min()` over a non-empty frame (the 0 default is never used: every
call site is guarded by a non-emptiness check, as in the source). -/
def colMin (fs : List Feature) (v : String) : ℚ :=
  match fs with
  | [] => 0
  | f :: rest => rest.foldl (fun m g => min m (g.attr v)) (f.attr v)

/-- `ddf[var].max()` over a non-empty frame. -/
def colMax (fs : List Feature) (v : String) : ℚ :=
  match fs with
  | [] => 0
  | f :: rest => rest.foldl (fun m g => max m (g.attr v)) (f.attr v)

/-- Bounding box of a vertex list: the model of `Polygon(coords)` for the
axis-aligned viewport rings (`[]` is unreachable, all call sites guard it). -/
def polyBox (cs : List (ℚ × ℚ)) : BBox :=
  match cs with
  | [] => ⟨0, 0, 0, 0⟩
  | c :: rest =>
      rest.foldl
        (fun b q => ⟨min b.lonMin q.1, min b.latMin q.2,
                     max b.lonMax q.1, max b.latMax q.2⟩)
        ⟨c.1, c.2, c.1, c.2⟩

/-- `relayout_data.get("mapbox._derived", {}).get("coordinates")` followed by
Python truthiness (`if coords:`): a missing or empty list is falsy. -/
def truthyCoords (r : Relayout) : Option (List (ℚ × ℚ)) :=
  match r.derivedCoords with
  | some cs => if cs.isEmpty then none else some cs
  | none => none

/-- Lines 244-254 of `update_map`: extract `(center_lat, center_lon, zoom)`
from `relayoutData`, with the dataset-derived defaults `(defLat, defLon)` and
zoom 4 where keys are missing.  Returns `(lat, lon, zoom)`. -/
def extractCenterZoom (defLat defLon : ℚ) (r? : Option Relayout) : ℚ × ℚ × ℚ :=
  match r? with
  | none => (defLat, defLon, 4)
  | some r =>
      let base :=
        match r.centerFlatLon, r.centerFlatLat with
        | some lon, some lat => (lat, lon)
        | _, _ =>
            match r.centerDict with
            | some c => (c.lat.getD defLat, c.lon.getD defLon)
            | none => (defLat, defLon)
      (base.1, base.2, r.zoom.getD 4)

/-- Line 274: `buffer_deg = max(0.05, 1.5 * 2 ** (-0.2 * zoom))`. -/
noncomputable def bufferDegDyn (zoom : ℚ) : ℝ :=
  max 0.05 (1.5 * (2 : ℝ) ^ ((-0.2 : ℝ) * (zoom : ℝ)))

/-- Lines 275-276: the dynamic-mode fallback box around the current center. -/
noncomputable def dynRBox (centerLon centerLat zoom : ℚ) : RBox :=
  ⟨(centerLon : ℝ) - bufferDegDyn zoom, (centerLat : ℝ) - bufferDegDyn zoom,
   (centerLon : ℝ) + bufferDegDyn zoom, (centerLat : ℝ) + bufferDegDyn zoom⟩

/-- Line 386: `buffer_deg = max(0.05, 3.5 / (zoom + 0.5))` (rational). -/
def bufferDegLock (zoom : ℚ) : ℚ :=
  max (1/20) ((7/2) / (zoom + 1/2))

/-- Lines 387-388: the lock-callback fallback box around the current center
(also the box stored in the `locked-bbox` store at lines 396-401). -/
def lockBox (centerLon centerLat zoom : ℚ) : BBox :=
  ⟨centerLon - bufferDegLock zoom, centerLat - bufferDegLock zoom,
   centerLon + bufferDegLock zoom, centerLat + bufferDegLock zoom⟩

/-- The repeated `if not ddf.empty: zmin = ddf[var].min(); zmax = ...`
pattern: the optional range of a subset (None when the subset is empty). -/
def subsetRangeOpt (subset : List Feature) (v : String) : Option ℚ × Option ℚ :=
  (if subset.isEmpty then none else some (colMin subset v),
   if subset.isEmpty then none else some (colMax subset v))

/-- Lines 294-296: `if zmin is None or zmax is None:` fall back to the
full-dataset range. -/
def finalRange (gdf : List Feature) (v : String) :
    Option ℚ → Option ℚ → ℚ × ℚ
  | some a, some b => (a, b)
  | _, _ => (colMin gdf v, colMax gdf v)

/-- The composite Range Computer: subset range with full-dataset fallback. -/
def rangeOf (gdf : List Feature) (v : String) (subset : List Feature) : ℚ × ℚ :=
  finalRange gdf v (subsetRangeOpt subset v).1 (subsetRangeOpt subset v).2

/-- What `update_map` hands to the renderer: the filtered frame `ddf` (and its
geojson), the colour range `(zmin, zmax)` and the viewport echo. -/
structure RenderInput where
  subset : List Feature
  zmin : ℚ
  zmax : ℚ
  centerLat : ℚ
  centerLon : ℚ
  zoom : ℚ
deriving DecidableEq

/-- Lines 233-312 of `update_map`: the whole render callback.  `dynamic` and
`lock_selection` model `"dynamic" in dynamic` / `"locked" in lock_selection`.
The `relayout_data = None` case and the too-short `Polygon(coords)` case of the
dynamic branch are the exceptions caught at lines 285-288 (full frame, range
untouched). -/
noncomputable def update_map (gdf : List Feature) (defLat defLon : ℚ)
    (var : String) (dynamic : Bool) (relayout_data : Option Relayout)
    (lock_selection : Bool) (locked_regions : Option (List String)) :
    RenderInput :=
  let c := extractCenterZoom defLat defLon relayout_data
  let use_locked := lock_selection && locked_regions.isSome
  let sub_z : List Feature × Option ℚ × Option ℚ :=
    if use_locked then
      let ddf := gdf.filter (fun f => decide (f.id ∈ locked_regions.getD []))
      (ddf, (subsetRangeOpt ddf var).1, (subsetRangeOpt ddf var).2)
    else if dynamic then
      match relayout_data with
      | none => (gdf, none, none)
      | some r =>
          match truthyCoords r with
          | some cs =>
              if cs.length < 3 then (gdf, none, none)
              else
                let ddf := gdf.filter (fun f => f.geom.intersects (polyBox cs))
                (ddf, (subsetRangeOpt ddf var).1, (subsetRangeOpt ddf var).2)
          | none =>
              let ddf := gdf.filter
                (fun f => f.geom.intersectsR (dynRBox c.2.1 c.1 c.2.2))
              (ddf, (subsetRangeOpt ddf var).1, (subsetRangeOpt ddf var).2)
    else (gdf, none, none)
  let fr := finalRange gdf var sub_z.2.1 sub_z.2.2
  ⟨sub_z.1, fr.1, fr.2, c.1, c.2.1, c.2.2⟩

/-- The colour range stored in the `locked-colour-scale` store
(`{"zmin": …, "zmax": …}`). -/
structure ColourRange where
  zmin : ℚ
  zmax : ℚ
deriving DecidableEq

/-- The five outputs of `lock_or_reset_callback`; `none` in the last two
components is `dash.no_update`. -/
structure LockOut where
  scale : Option ColourRange
  bbox : Option BBox
  regions : Option (List String)
  dynOut : Option Bool
  lockOut : Option Bool
deriving DecidableEq

/-- The `return None, None, None, dash.no_update, dash.no_update` output. -/
def noCapture : LockOut := ⟨none, none, none, none, none⟩

/-- Lines 381-401 (`# Fallback box`): the center/zoom-derived fallback of the
lock try-block.  `none` models an exception escaping to the `except` clause:
`ZeroDivisionError` when `zoom + 0.5 == 0`, `TypeError` when the center lat or
lon is missing. -/
def lockFallback (gdf : List Feature) (r : Relayout) (var : String) :
    Option LockOut :=
  let lat? := r.centerDict.bind CenterDict.lat
  let lon? := r.centerDict.bind CenterDict.lon
  let zoom := r.zoom.getD 4
  if zoom + 1/2 = 0 then none
  else
    match lat?, lon? with
    | some lat, some lon =>
        let visible :=
          gdf.filter (fun f => f.geom.intersects (lockBox lon lat zoom))
        if visible.isEmpty then some noCapture
        else some ⟨some ⟨colMin visible var, colMax visible var⟩,
                   some (lockBox lon lat zoom),
                   some (visible.map Feature.id), none, none⟩
    | _, _ => none

/-- Lines 367-401: the body of the `try:` block of `lock_or_reset_callback`.
`none` models an exception escaping to the `except` clause (`Polygon` raises
on fewer than 3 points). -/
def lockTryBody (gdf : List Feature) (r : Relayout) (var : String) :
    Option LockOut :=
  match truthyCoords r with
  | some cs =>
      if cs.length < 3 then none
      else
        let visible := gdf.filter (fun f => f.geom.intersects (polyBox cs))
        if visible.isEmpty then lockFallback gdf r var
        else some ⟨some ⟨colMin visible var, colMax visible var⟩, none,
                   some (visible.map Feature.id), none, none⟩
  | none => lockFallback gdf r var

/-- Lines 354-406: the lock/reset callback.  `triggered_reset` models
`ctx.triggered_id == "reset-view"`. -/
def lock_or_reset_callback (gdf : List Feature) (triggered_reset : Bool)
    (lock_value : Bool) (relayout_data : Option Relayout) (var : String) :
    LockOut :=
  if triggered_reset then ⟨none, none, none, some false, some false⟩
  else if !lock_value || relayout_data.isNone then noCapture
  else
    match relayout_data with
    | none => noCapture
    | some r => (lockTryBody gdf r var).getD noCapture

/-- The mutable per-session state: the three `dcc.Store`s, the two checklist
values, the selected variable and the last relayout payload. -/
structure AppState where
  var : String
  dynamicOn : Bool
  lockOn : Bool
  relayout : Option Relayout
  scale : Option ColourRange
  lockedBbox : Option BBox
  regions : Option (List String)
deriving DecidableEq

/-- One user interaction of §5 of the spec. -/
inductive UiEvent where
  | setVar (v : String)
  | toggleDynamic
  | toggleLock
  | viewport (r : Relayout)
  | resetClick
deriving DecidableEq

/-- Write a `LockOut` back into the state (`none` toggle outputs are
`dash.no_update`: the stored value is kept). -/
def applyLockOut (s : AppState) (o : LockOut) : AppState :=
  { s with scale := o.scale, lockedBbox := o.bbox, regions := o.regions,
           dynamicOn := o.dynOut.getD s.dynamicOn,
           lockOn := o.lockOut.getD s.lockOn }

/-- The event-step function: `lock_or_reset_callback` fires exactly on a
lock-checklist change and on a reset click; viewport events only replace the
stored `relayoutData`. -/
def stepEv (gdf : List Feature) (s : AppState) : UiEvent → AppState
  | .setVar v => { s with var := v }
  | .toggleDynamic => { s with dynamicOn := !s.dynamicOn }
  | .viewport r => { s with relayout := some r }
  | .toggleLock =>
      applyLockOut { s with lockOn := !s.lockOn }
        (lock_or_reset_callback gdf false (!s.lockOn) s.relayout s.var)
  | .resetClick =>
      applyLockOut s (lock_or_reset_callback gdf true s.lockOn s.relayout s.var)

/-- The page-load state: both checklists empty, all stores `None`. -/
def initState (v : String) : AppState :=
  ⟨v, false, false, none, none, none, none⟩

/-- The render produced for a state (what the `map` figure shows). -/
noncomputable def renderOf (gdf : List Feature) (defLat defLon : ℚ)
    (s : AppState) : RenderInput :=
  update_map gdf defLat defLon s.var s.dynamicOn s.relayout s.lockOn s.regions

/-- States reachable from page load by user interactions. -/
inductive Reachable (gdf : List Feature) : AppState → Prop where
  | init (v : String) : Reachable gdf (initState v)
  | step (s : AppState) (e : UiEvent) :
      Reachable gdf s → Reachable gdf (stepEv gdf s e)

/-! Concrete data used by witnesses and counterexamples.  `demo5` is the §8
scenario dataset: five features with attribute values 1, 2, 3, 100, 200. -/

/-- Scenario feature 0, attribute value 1. -/
def d5f0 : Feature := ⟨"0", ⟨0, 0, 1, 1⟩, [("val", 1)]⟩

/-- Scenario feature 1, attribute value 2. -/
def d5f1 : Feature := ⟨"1", ⟨1, 0, 2, 1⟩, [("val", 2)]⟩

/-- Scenario feature 2, attribute value 3. -/
def d5f2 : Feature := ⟨"2", ⟨10, 10, 11, 11⟩, [("val", 3)]⟩

/-- Scenario feature 3, attribute value 100. -/
def d5f3 : Feature := ⟨"3", ⟨20, 20, 21, 21⟩, [("val", 100)]⟩

/-- Scenario feature 4, attribute value 200. -/
def d5f4 : Feature := ⟨"4", ⟨30, 30, 31, 31⟩, [("val", 200)]⟩

/-- The five-feature scenario dataset of §8. -/
def demo5 : List Feature := [d5f0, d5f1, d5f2, d5f3, d5f4]

/-- A viewport ring whose box `[-1, 2]²` covers only `d5f0` and `d5f1`. -/
def goodCoords : List (ℚ × ℚ) := [(-1, -1), (2, -1), (2, 2), (-1, 2)]

/-- A viewport ring whose box `[50, 53]²` misses every demo feature. -/
def farCoords : List (ℚ × ℚ) := [(50, 50), (53, 50), (53, 53), (50, 53)]

/-- Relayout carrying the covering viewport ring. -/
def rGoodC : Relayout := ⟨none, none, none, none, some goodCoords⟩

/-- Relayout carrying the far-away viewport ring. -/
def rEmptyC : Relayout := ⟨none, none, none, none, some farCoords⟩

/-- A malformed relayout payload: no center, no zoom, no derived ring. -/
def rBadC : Relayout := ⟨none, none, none, none, none⟩

/-- A valid relayout with flat center keys `(lon, lat) = (10, 12)`, zoom 5. -/
def rValidC : Relayout := ⟨some 10, some 12, none, some 5, none⟩

/-- Far-away ring plus a far-away dict center: both the exact-polygon filter
and the fallback-box filter are empty, so the lock try-block completes with no
capture. -/
def rEmptyFull : Relayout :=
  ⟨none, none, some ⟨some 51, some 51⟩, some 4, some farCoords⟩

/-- No derived ring; dict center `(0, 0)`, zoom 4: exercises the
fallback-box capture path of the lock callback. -/
def rFbC : Relayout := ⟨none, none, some ⟨some 0, some 0⟩, some 4, none⟩

/-- No derived ring; flat center `(0, 0)`, zoom 0: the dynamic fallback box is
exactly `[-1.5, 1.5]²` (the zoom-0 buffer is 1.5). -/
def rNoCoords0 : Relayout := ⟨some 0, some 0, none, some 0, none⟩

/-- One huge feature containing any moderate viewport box. -/
def bigF : Feature := ⟨"0", ⟨-100, -100, 100, 100⟩, [("val", 7)]⟩

/-- Singleton dataset containing `bigF`. -/
def gdfBig : List Feature := [bigF]

/-- One feature far away from the origin. -/
def farF : Feature := ⟨"0", ⟨10, 10, 11, 11⟩, [("val", 9)]⟩

/-- Singleton dataset containing `farF`. -/
def gdfFar : List Feature := [farF]

/-- A feature with two attributes: `a = 1`, `b = 5`. -/
def fAB : Feature := ⟨"0", ⟨0, 0, 1, 1⟩, [("a", 1), ("b", 5)]⟩

/-- Singleton dataset containing `fAB`. -/
def gdfAB : List Feature := [fAB]

/-- The single feature of `gdfOne`, attribute value 3 on `"a"`. -/
def gdfOneF : Feature := ⟨"0", ⟨0, 0, 1, 1⟩, [("a", 3)]⟩

/-- Singleton dataset at the unit square. -/
def gdfOne : List Feature := [gdfOneF]

/-- First feature of `gdfTwo` (inside the unit square, value 1). -/
def gdfTwoF0 : Feature := ⟨"0", ⟨0, 0, 1, 1⟩, [("a", 1)]⟩

/-- Second feature of `gdfTwo` (far away, value 2). -/
def gdfTwoF1 : Feature := ⟨"1", ⟨10, 10, 11, 11⟩, [("a", 2)]⟩

/-- Two-feature dataset for the region-only-snapshot counterexample. -/
def gdfTwo : List Feature := [gdfTwoF0, gdfTwoF1]

/-- A free state whose stored relayout carries the covering ring. -/
def s1C2 : AppState := ⟨"a", false, false, some rGoodC, none, none, none⟩

/-- A free state whose stored relayout yields empty intersections. -/
def s2C2 : AppState := ⟨"a", false, false, some rEmptyFull, none, none, none⟩

/-- Lock toggle on, but no snapshot captured yet. -/
def sLockedNoSnap : AppState := ⟨"a", false, true, none, none, none, none⟩

/-- Trace: empty-region lock engagement followed by a covering viewport event.
The code never re-runs the lock callback on the third event. -/
def c2trace : AppState :=
  List.foldl (stepEv gdfOne) (initState "a")
    [UiEvent.viewport rEmptyC, UiEvent.toggleLock, UiEvent.viewport rGoodC]

/-- Trace: a valid viewport event followed by a malformed one. -/
def c7state : AppState :=
  List.foldl (stepEv gdfOne) (initState "a")
    [UiEvent.viewport rValidC, UiEvent.viewport rBadC]

/-- A reachable state holding the malformed relayout `rBadC`. -/
def c6state : AppState := stepEv gdfOne (initState "a") (UiEvent.viewport rBadC)

/-- The hypothetical state claim C9 speaks about: Locked with a snapshot that
carries a region but no feature-id set (`locked-bbox` set, `locked-regions`
`None`). -/
def c9hypState : AppState := ⟨"a", false, true, none, none, some ⟨0, 0, 1, 1⟩, none⟩

/-! Helper lemmas. -/

/-- The running minimum of a fold never exceeds its seed. -/
theorem foldl_attr_min_le (v : String) (l : List Feature) (a : ℚ) :
    List.foldl (fun m g => min m (g.attr v)) a l ≤ a := by
  induction l generalizing a with
  | nil => exact le_refl a
  | cons x xs ih => exact le_trans (ih (min a (x.attr v))) (min_le_left _ _)

/-- The running maximum of a fold is at least its seed. -/
theorem le_foldl_attr_max (v : String) (l : List Feature) (a : ℚ) :
    a ≤ List.foldl (fun m g => max m (g.attr v)) a l := by
  induction l generalizing a with
  | nil => exact le_refl a
  | cons x xs ih => exact le_trans (le_max_left _ _) (ih (max a (x.attr v)))

/-- A non-empty frame has `min ≤ max` on every column. -/
theorem colMin_le_colMax (fs : List Feature) (v : String) (h : fs ≠ []) :
    colMin fs v ≤ colMax fs v := by
  match fs with
  | [] => exact absurd rfl h
  | f :: rest =>
      exact le_trans (foldl_attr_min_le v rest (f.attr v))
        (le_foldl_attr_max v rest (f.attr v))

/-- Filtering by membership in a fixed id list agrees with filtering by `p`
whenever the two predicates agree on the list. -/
theorem filter_decide_mem_congr (l : List Feature) (ids : List String)
    (p : Feature → Bool) (h : ∀ f ∈ l, f.id ∈ ids ↔ p f = true) :
    l.filter (fun f => decide (f.id ∈ ids)) = l.filter p := by
  apply List.filter_congr
  intro f hf
  by_cases hp : p f = true
  · simp [hp, (h f hf).mpr hp]
  · have hni : f.id ∉ ids := fun hm => hp ((h f hf).mp hm)
    simp only [Bool.not_eq_true] at hp
    simp [hni, hp]

/-- With unique ids, re-filtering the store by the ids of a filtered subset
recovers exactly that subset (order included). -/
theorem filter_by_captured_ids (l : List Feature) (p : Feature → Bool)
    (hnd : (l.map Feature.id).Nodup) :
    l.filter (fun f => decide (f.id ∈ (l.filter p).map Feature.id)) =
      l.filter p := by
  apply filter_decide_mem_congr
  intro f hf
  constructor
  · intro hm
    rcases List.mem_map.mp hm with ⟨g, hg, hid⟩
    have hgl : g ∈ l := List.mem_of_mem_filter hg
    have hgf : g = f := List.inj_on_of_nodup_map hnd hgl hf hid
    exact hgf ▸ List.of_mem_filter hg
  · intro hp
    exact List.mem_map_of_mem Feature.id (List.mem_filter.mpr ⟨hf, hp⟩)

/-- The locked render branch: with the id list captured from a filter, the
rendered frame is exactly that filter's result and the range is its column
min/max (for any relayout payload). -/
theorem update_map_locked (gdf : List Feature) (defLat defLon : ℚ)
    (var : String) (dynamic : Bool) (rel : Option Relayout)
    (p : Feature → Bool) (hnd : (gdf.map Feature.id).Nodup)
    (hne : gdf.filter p ≠ []) :
    update_map gdf defLat defLon var dynamic rel true
        (some ((gdf.filter p).map Feature.id)) =
      ⟨gdf.filter p, colMin (gdf.filter p) var, colMax (gdf.filter p) var,
       (extractCenterZoom defLat defLon rel).1,
       (extractCenterZoom defLat defLon rel).2.1,
       (extractCenterZoom defLat defLon rel).2.2⟩ := by
  have hfil := filter_by_captured_ids gdf p hnd
  have hie : (gdf.filter p).isEmpty = false := by
    cases hl : gdf.filter p with
    | nil => exact absurd hl hne
    | cons x xs => rfl
  simp only [update_map, Option.isSome_some, Bool.and_true, if_true,
    Option.getD_some, hfil, subsetRangeOpt, hie, Bool.false_eq_true,
    if_false, finalRange]

/-- Every output of the fallback-box part leaves both checklist outputs as
`dash.no_update`. -/
theorem lockFallback_toggles (gdf : List Feature) (r : Relayout)
    (var : String) (o : LockOut) (h : lockFallback gdf r var = some o) :
    o.dynOut = none ∧ o.lockOut = none := by
  simp only [lockFallback] at h
  split at h
  · exact absurd h (by simp)
  · split at h
    · split at h
      · cases h with | refl => exact ⟨rfl, rfl⟩
      · cases h with | refl => exact ⟨rfl, rfl⟩
    · exact absurd h (by simp)

/-- Every non-reset output of the lock try-block leaves both checklist
outputs as `dash.no_update`. -/
theorem lockTryBody_toggles (gdf : List Feature) (r : Relayout) (var : String)
    (o : LockOut) (h : lockTryBody gdf r var = some o) :
    o.dynOut = none ∧ o.lockOut = none := by
  simp only [lockTryBody] at h
  split at h
  · split at h
    · exact absurd h (by simp)
    · split at h
      · exact lockFallback_toggles gdf r var o h
      · cases h with | refl => exact ⟨rfl, rfl⟩
  · exact lockFallback_toggles gdf r var o h

/-- A non-reset run of the callback never touches the checklist outputs. -/
theorem lockCallback_toggles_no_update (gdf : List Feature) (lv : Bool)
    (rel : Option Relayout) (var : String) :
    (lock_or_reset_callback gdf false lv rel var).dynOut = none ∧
    (lock_or_reset_callback gdf false lv rel var).lockOut = none := by
  simp only [lock_or_reset_callback, Bool.false_eq_true, if_false]
  split
  · exact ⟨rfl, rfl⟩
  · split
    · exact ⟨rfl, rfl⟩
    · rename_i r _
      cases h : lockTryBody gdf r var with
      | none => exact ⟨rfl, rfl⟩
      | some o => exact lockTryBody_toggles gdf r var o h

/-- Disengaging the lock (callback with the checklist cleared) always clears
all three stores. -/
theorem lockCallback_off (gdf : List Feature) (rel : Option Relayout)
    (var : String) :
    lock_or_reset_callback gdf false false rel var = noCapture := by
  simp [lock_or_reset_callback]

/-- Invariant: in every reachable state with the lock checklist cleared, all
three lock stores are `None`. -/
theorem reachable_lockOff_clear (gdf : List Feature) {s : AppState}
    (h : Reachable gdf s) :
    s.lockOn = false →
      s.scale = none ∧ s.lockedBbox = none ∧ s.regions = none := by
  induction h with
  | init v => intro _; exact ⟨rfl, rfl, rfl⟩
  | step s e hs ih =>
      intro hl
      cases e with
      | setVar v => exact ih hl
      | toggleDynamic => exact ih hl
      | viewport r => exact ih hl
      | resetClick =>
          simp only [stepEv, applyLockOut, lock_or_reset_callback, if_true]
          exact ⟨trivial, trivial, trivial⟩
      | toggleLock =>
          by_cases hon : s.lockOn
          · simp only [stepEv, applyLockOut, hon, Bool.not_true,
              lockCallback_off, noCapture]
            exact ⟨trivial, trivial, trivial⟩
          · exfalso
            simp only [Bool.not_eq_true] at hon
            have h2 := (lockCallback_toggles_no_update gdf (!s.lockOn)
              s.relayout s.var).2
            simp only [hon, Bool.not_false] at h2
            simp only [stepEv, applyLockOut, hon, Bool.not_false] at hl
            rw [h2] at hl
            simp at hl

/-- A fallback-box output that stores regions comes from a non-empty filter of
the store against the fallback box, and stores that box too. -/
theorem lockFallback_shape (gdf : List Feature) (r : Relayout) (var : String)
    (o : LockOut) (ids : List String) (h : lockFallback gdf r var = some o)
    (hids : o.regions = some ids) :
    ∃ p : Feature → Bool, gdf.filter p ≠ [] ∧
      ids = (gdf.filter p).map Feature.id ∧
      o.scale = some ⟨colMin (gdf.filter p) var, colMax (gdf.filter p) var⟩ := by
  simp only [lockFallback] at h
  split at h
  · exact absurd h (by simp)
  · split at h
    · rename_i lat lon hlat hlon
      split at h
      · cases h with
        | refl => exact absurd hids (by simp [noCapture])
      · rename_i hvis
        cases h with
        | refl =>
            refine ⟨fun f =>
              f.geom.intersects (lockBox lon lat (r.zoom.getD 4)), ?_, ?_, rfl⟩
            · intro hnil
              rw [hnil] at hvis
              exact hvis rfl
            · exact Option.some_injective _ hids.symm
    · exact absurd h (by simp)

/-- Any snapshot-producing run of the lock callback stores the ids and the
column range of a non-empty filter of the store. -/
theorem capture_shape (gdf : List Feature) (r : Relayout) (var : String)
    (out : LockOut) (ids : List String)
    (hout : lock_or_reset_callback gdf false true (some r) var = out)
    (hids : out.regions = some ids) :
    ∃ p : Feature → Bool, gdf.filter p ≠ [] ∧
      ids = (gdf.filter p).map Feature.id ∧
      out.scale = some ⟨colMin (gdf.filter p) var, colMax (gdf.filter p) var⟩ := by
  simp only [lock_or_reset_callback, Bool.false_eq_true, if_false,
    Bool.not_true, Option.isNone_some, Bool.or_self, Bool.false_or] at hout
  cases hb : lockTryBody gdf r var with
  | none =>
      rw [hb] at hout
      simp only [Option.getD_none] at hout
      rw [← hout] at hids
      exact absurd hids (by simp [noCapture])
  | some o =>
      rw [hb] at hout
      simp only [Option.getD_some] at hout
      subst hout
      simp only [lockTryBody] at hb
      split at hb
      · rename_i cs hcs
        split at hb
        · exact absurd hb (by simp)
        · split at hb
          · exact lockFallback_shape gdf r var o ids hb hids
          · rename_i hvis
            cases hb with
            | refl =>
                refine ⟨fun f => f.geom.intersects (polyBox cs), ?_, ?_, rfl⟩
                · intro hnil
                  rw [hnil] at hvis
                  exact hvis rfl
                · exact Option.some_injective _ hids.symm
      · exact lockFallback_shape gdf r var o ids hb hids

/-- A fallback-box output that stores a box also stores the ids and range of
the (non-empty) filter of the store against that very box. -/
theorem lockFallback_bbox (gdf : List Feature) (r : Relayout) (var : String)
    (o : LockOut) (bb : BBox) (h : lockFallback gdf r var = some o)
    (hbb : o.bbox = some bb) :
    gdf.filter (fun f => f.geom.intersects bb) ≠ [] ∧
    o.regions =
      some ((gdf.filter (fun f => f.geom.intersects bb)).map Feature.id) ∧
    o.scale =
      some ⟨colMin (gdf.filter (fun f => f.geom.intersects bb)) var,
            colMax (gdf.filter (fun f => f.geom.intersects bb)) var⟩ := by
  simp only [lockFallback] at h
  split at h
  · exact absurd h (by simp)
  · split at h
    · rename_i lat lon hlat hlon
      split at h
      · cases h with
        | refl => exact absurd hbb (by simp [noCapture])
      · rename_i hvis
        cases h with
        | refl =>
            have hbbeq : lockBox lon lat (r.zoom.getD 4) = bb :=
              Option.some_injective _ hbb
            subst hbbeq
            refine ⟨?_, rfl, rfl⟩
            intro hnil
            rw [hnil] at hvis
            exact hvis rfl
    · exact absurd h (by simp)

/-- Any run of the lock callback that stores a box in `locked-bbox` also
stores the id list of the non-empty filter against that box. -/
theorem capture_bbox_shape (gdf : List Feature) (r : Relayout) (var : String)
    (out : LockOut) (bb : BBox)
    (hout : lock_or_reset_callback gdf false true (some r) var = out)
    (hbb : out.bbox = some bb) :
    gdf.filter (fun f => f.geom.intersects bb) ≠ [] ∧
    out.regions =
      some ((gdf.filter (fun f => f.geom.intersects bb)).map Feature.id) ∧
    out.scale =
      some ⟨colMin (gdf.filter (fun f => f.geom.intersects bb)) var,
            colMax (gdf.filter (fun f => f.geom.intersects bb)) var⟩ := by
  simp only [lock_or_reset_callback, Bool.false_eq_true, if_false,
    Bool.not_true, Option.isNone_some, Bool.or_self, Bool.false_or] at hout
  cases hb : lockTryBody gdf r var with
  | none =>
      rw [hb] at hout
      simp only [Option.getD_none] at hout
      rw [← hout] at hbb
      exact absurd hbb (by simp [noCapture])
  | some o =>
      rw [hb] at hout
      simp only [Option.getD_some] at hout
      subst hout
      simp only [lockTryBody] at hb
      split at hb
      · rename_i cs hcs
        split at hb
        · exact absurd hb (by simp)
        · split at hb
          · exact lockFallback_bbox gdf r var o bb hb hbb
          · cases hb with
            | refl => exact absurd hbb (by simp)
      · exact lockFallback_bbox gdf r var o bb hb hbb

/-- The dynamic-mode buffer is antitone in zoom (everywhere). -/
theorem bufferDegDyn_anti (z1 z2 : ℚ) (h : z1 ≤ z2) :
    bufferDegDyn z2 ≤ bufferDegDyn z1 := by
  unfold bufferDegDyn
  apply max_le_max le_rfl
  apply mul_le_mul_of_nonneg_left _ (by norm_num : (0:ℝ) ≤ 1.5)
  apply (Real.rpow_le_rpow_left_iff (by norm_num : (1:ℝ) < 2)).mpr
  have hc : (z1 : ℝ) ≤ (z2 : ℝ) := by exact_mod_cast h
  nlinarith

/-- The lock-callback buffer is antitone in zoom on the in-range zooms. -/
theorem bufferDegLock_anti (z1 z2 : ℚ) (h0 : 0 ≤ z1) (h : z1 ≤ z2) :
    bufferDegLock z2 ≤ bufferDegLock z1 := by
  unfold bufferDegLock
  apply max_le_max le_rfl
  rw [div_le_div_iff₀ (by linarith) (by linarith)]
  linarith

/-- The dynamic buffer never drops below its 0.05 floor. -/
theorem bufferDegDyn_floor (z : ℚ) : (0.05 : ℝ) ≤ bufferDegDyn z := by
  unfold bufferDegDyn
  exact le_max_left _ _

/-- The lock buffer never drops below its 0.05 floor. -/
theorem bufferDegLock_floor (z : ℚ) : (1/20 : ℚ) ≤ bufferDegLock z := by
  unfold bufferDegLock
  exact le_max_left _ _

/-- For in-range zooms the dynamic buffer is bounded by its zoom-0 value. -/
theorem bufferDegDyn_upper (z : ℚ) (h : 0 ≤ z) : bufferDegDyn z ≤ 1.5 := by
  unfold bufferDegDyn
  apply max_le (by norm_num)
  have h2 : (2:ℝ) ^ ((-0.2 : ℝ) * (z:ℝ)) ≤ 1 := by
    apply Real.rpow_le_one_of_one_le_of_nonpos (by norm_num)
    have hc : (0:ℝ) ≤ (z:ℝ) := by exact_mod_cast h
    nlinarith
  nlinarith

/-- For in-range zooms the lock buffer is bounded by its zoom-0 value. -/
theorem bufferDegLock_upper (z : ℚ) (h : 0 ≤ z) : bufferDegLock z ≤ 7 := by
  unfold bufferDegLock
  apply max_le (by norm_num)
  have h1 : (7/2 : ℚ)/(z + 1/2) ≤ (7/2)/(0 + 1/2) := by
    rw [div_le_div_iff₀ (by linarith) (by norm_num)]
    linarith
  norm_num at h1
  exact h1

/-- At zoom 0 the dynamic buffer is exactly 1.5 degrees. -/
theorem bufferDegDyn_zero : bufferDegDyn 0 = 1.5 := by
  unfold bufferDegDyn
  rw [show ((-0.2 : ℝ) * ((0 : ℚ) : ℝ)) = 0 by norm_num, Real.rpow_zero]
  norm_num

/-- At zoom 0 around the origin the dynamic fallback box is `[-1.5, 1.5]²`. -/
theorem dynRBox_zero : dynRBox 0 0 0 = ⟨-1.5, -1.5, 1.5, 1.5⟩ := by
  unfold dynRBox
  rw [bufferDegDyn_zero]
  simp only [RBox.mk.injEq]
  norm_num

/-- The huge demo feature meets the zoom-0 fallback box. -/
theorem dynFilter_big :
    gdfBig.filter (fun f => f.geom.intersectsR (dynRBox 0 0 0)) = gdfBig := by
  have hp : bigF.geom.intersectsR (dynRBox 0 0 0) = true := by
    rw [dynRBox_zero]
    simp only [BBox.intersectsR, bigF, decide_eq_true_eq]
    norm_num
  simp [gdfBig, List.filter, hp]

/-- The far-away demo feature misses the zoom-0 fallback box. -/
theorem dynFilter_far :
    gdfFar.filter (fun f => f.geom.intersectsR (dynRBox 0 0 0)) = [] := by
  have hp : farF.geom.intersectsR (dynRBox 0 0 0) = false := by
    rw [dynRBox_zero]
    simp only [BBox.intersectsR, farF, decide_eq_false_iff_not]
    norm_num
  simp [gdfFar, List.filter, hp]

/-! The claims. -/

/-- C3: for every attribute, the range computed for an empty feature subset
equals the range computed over the full dataset for that same attribute (the
full-dataset fallback of lines 294-296 is never skipped), and the resulting
range is valid and renderable (`min ≤ max`). -/
theorem claim3_empty_subset_full_range (gdf : List Feature) (var : String)
    (h : gdf ≠ []) :
    rangeOf gdf var [] = rangeOf gdf var gdf ∧
    (rangeOf gdf var []).1 ≤ (rangeOf gdf var []).2 := by
  have hie : gdf.isEmpty = false := by
    cases gdf with
    | nil => exact absurd rfl h
    | cons x xs => rfl
  constructor
  · simp [rangeOf, subsetRangeOpt, finalRange, hie]
  · have := colMin_le_colMax gdf var h
    simpa [rangeOf, subsetRangeOpt, finalRange] using this

/-- Witness for C3 on the five-feature scenario dataset. -/
theorem claim3_witness :
    rangeOf demo5 "val" [] = rangeOf demo5 "val" demo5 ∧
    (rangeOf demo5 "val" []).1 ≤ (rangeOf demo5 "val" []).2 :=
  claim3_empty_subset_full_range demo5 "val" (by decide)

/-- C5: a reset click, from any state, clears the mode to Free (both
checklists emptied), discards the snapshot stores, and is idempotent: a second
reset yields the identical state. -/
theorem claim5_reset_idempotent (gdf : List Feature) (s : AppState) :
    (stepEv gdf s .resetClick).lockOn = false ∧
    (stepEv gdf s .resetClick).dynamicOn = false ∧
    (stepEv gdf s .resetClick).scale = none ∧
    (stepEv gdf s .resetClick).lockedBbox = none ∧
    (stepEv gdf s .resetClick).regions = none ∧
    stepEv gdf (stepEv gdf s .resetClick) .resetClick =
      stepEv gdf s .resetClick := by
  simp [stepEv, lock_or_reset_callback, applyLockOut]

/-- C8: for in-range zooms the two zoom-to-buffer functions are monotonically
decreasing, clamped below by a positive floor, bounded above, and every
resolved center/zoom box is well-formed (`lonMin ≤ lonMax`, `latMin ≤
latMax`). -/
theorem claim8_buffer_monotone (z1 z2 : ℚ) (h0 : 0 ≤ z1) (h : z1 ≤ z2) :
    (bufferDegDyn z2 ≤ bufferDegDyn z1 ∧
     bufferDegLock z2 ≤ bufferDegLock z1) ∧
    ((0.05 : ℝ) ≤ bufferDegDyn z1 ∧ (1/20 : ℚ) ≤ bufferDegLock z1) ∧
    (bufferDegDyn z1 ≤ 1.5 ∧ bufferDegLock z1 ≤ 7) ∧
    (∀ lon lat zoom : ℚ,
      (dynRBox lon lat zoom).lonMin ≤ (dynRBox lon lat zoom).lonMax ∧
      (dynRBox lon lat zoom).latMin ≤ (dynRBox lon lat zoom).latMax ∧
      (lockBox lon lat zoom).lonMin ≤ (lockBox lon lat zoom).lonMax ∧
      (lockBox lon lat zoom).latMin ≤ (lockBox lon lat zoom).latMax) := by
  refine ⟨⟨bufferDegDyn_anti z1 z2 h, bufferDegLock_anti z1 z2 h0 h⟩,
          ⟨bufferDegDyn_floor z1, bufferDegLock_floor z1⟩,
          ⟨bufferDegDyn_upper z1 h0, bufferDegLock_upper z1 h0⟩, ?_⟩
  intro lon lat zoom
  have hd := bufferDegDyn_floor zoom
  have hl := bufferDegLock_floor zoom
  refine ⟨?_, ?_, ?_, ?_⟩
  · show (lon : ℝ) - bufferDegDyn zoom ≤ (lon : ℝ) + bufferDegDyn zoom
    linarith
  · show (lat : ℝ) - bufferDegDyn zoom ≤ (lat : ℝ) + bufferDegDyn zoom
    linarith
  · show lon - bufferDegLock zoom ≤ lon + bufferDegLock zoom
    linarith
  · show lat - bufferDegLock zoom ≤ lat + bufferDegLock zoom
    linarith

/-- Witness for C8 at zooms 0 ≤ 1 and the box at `(3, 4)`, zoom 5. -/
theorem claim8_witness :
    (bufferDegDyn 1 ≤ bufferDegDyn 0 ∧ bufferDegLock 1 ≤ bufferDegLock 0) ∧
    ((0.05 : ℝ) ≤ bufferDegDyn 0 ∧ (1/20 : ℚ) ≤ bufferDegLock 0) ∧
    (bufferDegDyn 0 ≤ 1.5 ∧ bufferDegLock 0 ≤ 7) ∧
    ((dynRBox 3 4 5).lonMin ≤ (dynRBox 3 4 5).lonMax ∧
     (dynRBox 3 4 5).latMin ≤ (dynRBox 3 4 5).latMax ∧
     (lockBox 3 4 5).lonMin ≤ (lockBox 3 4 5).lonMax ∧
     (lockBox 3 4 5).latMin ≤ (lockBox 3 4 5).latMax) := by
  obtain ⟨a, b, c, d⟩ := claim8_buffer_monotone 0 1 (by norm_num) (by norm_num)
  exact ⟨a, b, c, d 3 4 5⟩

/-- A non-nil list is not `isEmpty`. -/
theorem isEmpty_false_of_ne_nil {l : List Feature} (h : l ≠ []) :
    l.isEmpty = false := by
  cases l with
  | nil => exact absurd rfl h
  | cons x xs => rfl

/-- C4: in Dynamic mode (dynamic checklist set, lock disengaged), whenever the
resolved region — exact viewport ring or center/zoom fallback box — meets a
non-empty set of features, the rendered subset is exactly the intersecting
features and the rendered range is the column min/max over that subset. -/
theorem claim4_dynamic_live_range (gdf : List Feature) (defLat defLon : ℚ)
    (var : String) :
    (∀ (r : Relayout) (cs : List (ℚ × ℚ)),
        truthyCoords r = some cs → ¬ cs.length < 3 →
        gdf.filter (fun f => f.geom.intersects (polyBox cs)) ≠ [] →
        update_map gdf defLat defLon var true (some r) false none =
          ⟨gdf.filter (fun f => f.geom.intersects (polyBox cs)),
           colMin (gdf.filter (fun f => f.geom.intersects (polyBox cs))) var,
           colMax (gdf.filter (fun f => f.geom.intersects (polyBox cs))) var,
           (extractCenterZoom defLat defLon (some r)).1,
           (extractCenterZoom defLat defLon (some r)).2.1,
           (extractCenterZoom defLat defLon (some r)).2.2⟩) ∧
    (∀ r : Relayout,
        truthyCoords r = none →
        gdf.filter (fun f => f.geom.intersectsR
          (dynRBox (extractCenterZoom defLat defLon (some r)).2.1
                   (extractCenterZoom defLat defLon (some r)).1
                   (extractCenterZoom defLat defLon (some r)).2.2)) ≠ [] →
        update_map gdf defLat defLon var true (some r) false none =
          ⟨gdf.filter (fun f => f.geom.intersectsR
             (dynRBox (extractCenterZoom defLat defLon (some r)).2.1
                      (extractCenterZoom defLat defLon (some r)).1
                      (extractCenterZoom defLat defLon (some r)).2.2)),
           colMin (gdf.filter (fun f => f.geom.intersectsR
             (dynRBox (extractCenterZoom defLat defLon (some r)).2.1
                      (extractCenterZoom defLat defLon (some r)).1
                      (extractCenterZoom defLat defLon (some r)).2.2))) var,
           colMax (gdf.filter (fun f => f.geom.intersectsR
             (dynRBox (extractCenterZoom defLat defLon (some r)).2.1
                      (extractCenterZoom defLat defLon (some r)).1
                      (extractCenterZoom defLat defLon (some r)).2.2))) var,
           (extractCenterZoom defLat defLon (some r)).1,
           (extractCenterZoom defLat defLon (some r)).2.1,
           (extractCenterZoom defLat defLon (some r)).2.2⟩) := by
  constructor
  · intro r cs hcs hlen hne
    have hie := isEmpty_false_of_ne_nil hne
    simp [update_map, hcs, hlen, hie, subsetRangeOpt, finalRange]
  · intro r hcs hne
    have hie := isEmpty_false_of_ne_nil hne
    simp [update_map, hcs, hie, subsetRangeOpt, finalRange]

/-- Witness for C4: the §8 scenario — on the five-value dataset
`[1,2,3,100,200]`, a viewport covering only the features valued 1 and 2 under
Dynamic mode renders exactly those two features with range `(1, 2)`; and on
the fallback-box path (zoom 0) the huge feature is rendered with its own
range. -/
theorem claim4_witness :
    update_map demo5 0 0 "val" true (some rGoodC) false none =
      ⟨[d5f0, d5f1], 1, 2, 0, 0, 4⟩ ∧
    update_map gdfBig 0 0 "val" true (some rNoCoords0) false none =
      ⟨[bigF], 7, 7, 0, 0, 0⟩ := by
  constructor
  · exact ((claim4_dynamic_live_range demo5 0 0 "val").1 rGoodC goodCoords
      (by decide) (by decide) (by decide)).trans (by decide)
  · have hbox : dynRBox (extractCenterZoom 0 0 (some rNoCoords0)).2.1
        (extractCenterZoom 0 0 (some rNoCoords0)).1
        (extractCenterZoom 0 0 (some rNoCoords0)).2.2 = dynRBox 0 0 0 := rfl
    have hne : gdfBig.filter (fun f => f.geom.intersectsR
        (dynRBox (extractCenterZoom 0 0 (some rNoCoords0)).2.1
                 (extractCenterZoom 0 0 (some rNoCoords0)).1
                 (extractCenterZoom 0 0 (some rNoCoords0)).2.2)) ≠ [] := by
      rw [hbox, dynFilter_big]
      simp [gdfBig]
    have h := (claim4_dynamic_live_range gdfBig 0 0 "val").2 rNoCoords0
      (by decide) hne
    rw [h]
    rw [show gdfBig.filter (fun f => f.geom.intersectsR
        (dynRBox (extractCenterZoom 0 0 (some rNoCoords0)).2.1
                 (extractCenterZoom 0 0 (some rNoCoords0)).1
                 (extractCenterZoom 0 0 (some rNoCoords0)).2.2)) = [bigF] from by
      rw [hbox, dynFilter_big]
      rfl]
    decide

/-- C10: in Dynamic mode, when the resolved region meets no features, the
rendered subset is empty — not the full dataset — while the colour range
passed to the renderer is the full-dataset range for the selected attribute. -/
theorem claim10_dynamic_empty_full_range (gdf : List Feature)
    (defLat defLon : ℚ) (var : String) :
    (∀ (r : Relayout) (cs : List (ℚ × ℚ)),
        truthyCoords r = some cs → ¬ cs.length < 3 →
        gdf.filter (fun f => f.geom.intersects (polyBox cs)) = [] →
        update_map gdf defLat defLon var true (some r) false none =
          ⟨[], colMin gdf var, colMax gdf var,
           (extractCenterZoom defLat defLon (some r)).1,
           (extractCenterZoom defLat defLon (some r)).2.1,
           (extractCenterZoom defLat defLon (some r)).2.2⟩) ∧
    (∀ r : Relayout,
        truthyCoords r = none →
        gdf.filter (fun f => f.geom.intersectsR
          (dynRBox (extractCenterZoom defLat defLon (some r)).2.1
                   (extractCenterZoom defLat defLon (some r)).1
                   (extractCenterZoom defLat defLon (some r)).2.2)) = [] →
        update_map gdf defLat defLon var true (some r) false none =
          ⟨[], colMin gdf var, colMax gdf var,
           (extractCenterZoom defLat defLon (some r)).1,
           (extractCenterZoom defLat defLon (some r)).2.1,
           (extractCenterZoom defLat defLon (some r)).2.2⟩) := by
  constructor
  · intro r cs hcs hlen hemp
    simp [update_map, hcs, hlen, hemp, subsetRangeOpt, finalRange]
  · intro r hcs hemp
    simp [update_map, hcs, hemp, subsetRangeOpt, finalRange]

/-- Witness for C10: a far-away viewport over the five-feature scenario
dataset renders zero features with the full range `(1, 200)`; same on the
fallback-box path at zoom 0. -/
theorem claim10_witness :
    update_map demo5 0 0 "val" true (some rEmptyC) false none =
      ⟨[], 1, 200, 0, 0, 4⟩ ∧
    update_map gdfFar 0 0 "val" true (some rNoCoords0) false none =
      ⟨[], 9, 9, 0, 0, 0⟩ := by
  constructor
  · exact ((claim10_dynamic_empty_full_range demo5 0 0 "val").1 rEmptyC
      farCoords (by decide) (by decide) (by decide)).trans (by decide)
  · have hbox : dynRBox (extractCenterZoom 0 0 (some rNoCoords0)).2.1
        (extractCenterZoom 0 0 (some rNoCoords0)).1
        (extractCenterZoom 0 0 (some rNoCoords0)).2.2 = dynRBox 0 0 0 := rfl
    have hemp : gdfFar.filter (fun f => f.geom.intersectsR
        (dynRBox (extractCenterZoom 0 0 (some rNoCoords0)).2.1
                 (extractCenterZoom 0 0 (some rNoCoords0)).1
                 (extractCenterZoom 0 0 (some rNoCoords0)).2.2)) = [] := by
      rw [hbox, dynFilter_far]
    exact ((claim10_dynamic_empty_full_range gdfFar 0 0 "val").2 rNoCoords0
      (by decide) hemp).trans (by decide)

/-- The lock-callback buffer at zoom 4 evaluates to 7/9 degrees. -/
theorem bufferDegLock_four : bufferDegLock 4 = 7/9 := by
  unfold bufferDegLock
  rw [show ((7:ℚ)/2)/(4 + 1/2) = 7/9 by norm_num]
  exact max_eq_right (by norm_num)

/-- C1 (amended): while Locked with a captured feature-id snapshot and the
capture-time attribute still selected, every render — for any relayout
payload whatsoever — shows exactly the Feature Store entries whose id is in
the snapshot's set, and the rendered range equals the snapshot's range (the
range is recomputed from the id subset, which reproduces the stored value
for the capture attribute; viewport changes never alter it). -/
theorem claim1_locked_snapshot_render (gdf : List Feature) (r₀ : Relayout)
    (var : String) (out : LockOut) (ids : List String) (cr : ColourRange)
    (hnd : (gdf.map Feature.id).Nodup)
    (hout : lock_or_reset_callback gdf false true (some r₀) var = out)
    (hids : out.regions = some ids)
    (hcr : out.scale = some cr) :
    ∀ (defLat defLon : ℚ) (dynamic : Bool) (rel : Option Relayout),
      (update_map gdf defLat defLon var dynamic rel true
        (some ids)).subset.map Feature.id = ids ∧
      (update_map gdf defLat defLon var dynamic rel true (some ids)).zmin =
        cr.zmin ∧
      (update_map gdf defLat defLon var dynamic rel true (some ids)).zmax =
        cr.zmax := by
  obtain ⟨p, hne, hidsEq, hscale⟩ := capture_shape gdf r₀ var out ids hout hids
  subst hidsEq
  intro defLat defLon dynamic rel
  rw [update_map_locked gdf defLat defLon var dynamic rel p hnd hne]
  rw [hscale] at hcr
  have hcr2 := Option.some_injective _ hcr
  rw [← hcr2]
  exact ⟨rfl, rfl, rfl⟩

/-- Witness for C1: a snapshot captured over `gdfAB` with attribute `"a"`
renders the snapshotted feature with range `(1, 1)` even for an unrelated
later relayout payload. -/
theorem claim1_witness :
    (update_map gdfAB 0 0 "a" false (some rEmptyC) true
      (some ["0"])).subset.map Feature.id = ["0"] ∧
    (update_map gdfAB 0 0 "a" false (some rEmptyC) true
      (some ["0"])).zmin = 1 ∧
    (update_map gdfAB 0 0 "a" false (some rEmptyC) true
      (some ["0"])).zmax = 1 :=
  claim1_locked_snapshot_render gdfAB rGoodC "a"
    (lock_or_reset_callback gdfAB false true (some rGoodC) "a") ["0"] ⟨1, 1⟩
    (by decide) rfl (by decide) (by decide) 0 0 false (some rEmptyC)

/-- Counterexample to C1 as stated: after capturing a snapshot at attribute
`"a"` (stored range `(1, 1)`), a render event that switches the attribute to
`"b"` while still Locked shows range min 5 — not the snapshot's stored 1.
The rendered range is recomputed over the id subset for the current
attribute, not read from the stored snapshot. -/
theorem claim1_counterexample :
    (lock_or_reset_callback gdfAB false true (some rGoodC) "a").scale =
      some ⟨1, 1⟩ ∧
    (lock_or_reset_callback gdfAB false true (some rGoodC) "a").regions =
      some ["0"] ∧
    (update_map gdfAB 0 0 "b" false (some rGoodC) true (some ["0"])).zmin =
      5 ∧
    ¬ ((5 : ℚ) = 1) := by
  refine ⟨by decide, by decide, by decide, by decide⟩

/-- Evaluation of the fallback-box capture on `gdfOne` at center `(0,0)`,
zoom 4: the 7/9-degree box meets the unit-square feature, so the callback
stores the range, the box and the id list. -/
theorem lockFallback_rFbC :
    lockFallback gdfOne rFbC "a" =
      some ⟨some ⟨3, 3⟩, some (lockBox 0 0 4), some ["0"], none, none⟩ := by
  have hint : gdfOneF.geom.intersects (lockBox 0 0 4) = true := by
    simp only [BBox.intersects, lockBox, bufferDegLock_four, gdfOneF,
      decide_eq_true_eq]
    norm_num
  have hfil : gdfOne.filter (fun f => f.geom.intersects (lockBox 0 0 4)) =
      [gdfOneF] := by
    simp [gdfOne, List.filter, hint]
  norm_num [lockFallback, rFbC, hfil, colMin, colMax, gdfOneF, Feature.attr]

/-- The full lock callback on `rFbC` (fallback capture). -/
theorem lockCallback_rFbC :
    lock_or_reset_callback gdfOne false true (some rFbC) "a" =
      ⟨some ⟨3, 3⟩, some (lockBox 0 0 4), some ["0"], none, none⟩ := by
  have hc : truthyCoords rFbC = none := rfl
  simp [lock_or_reset_callback, lockTryBody, hc, lockFallback_rFbC]

/-- C9 (amended): the fallback path never produces a region-only snapshot —
whenever the callback stores a box in `locked-bbox` it also stores the
feature-id list of the (non-empty) intersection with that box, together with
its range; rendering uses the id list, and since the Feature Store is
immutable the rendered subset coincides with intersecting the current store
against that fixed region, while the rendered range equals the snapshot's
range for the capture attribute. -/
theorem claim9_fallback_region_snapshot (gdf : List Feature) (r : Relayout)
    (var : String) (out : LockOut) (bb : BBox)
    (hnd : (gdf.map Feature.id).Nodup)
    (hout : lock_or_reset_callback gdf false true (some r) var = out)
    (hbb : out.bbox = some bb) :
    out.regions =
      some ((gdf.filter (fun f => f.geom.intersects bb)).map Feature.id) ∧
    out.scale =
      some ⟨colMin (gdf.filter (fun f => f.geom.intersects bb)) var,
            colMax (gdf.filter (fun f => f.geom.intersects bb)) var⟩ ∧
    ∀ (defLat defLon : ℚ) (dynamic : Bool) (rel : Option Relayout),
      (update_map gdf defLat defLon var dynamic rel true
          (some ((gdf.filter (fun f => f.geom.intersects bb)).map
            Feature.id))).subset =
        gdf.filter (fun f => f.geom.intersects bb) ∧
      (update_map gdf defLat defLon var dynamic rel true
          (some ((gdf.filter (fun f => f.geom.intersects bb)).map
            Feature.id))).zmin =
        colMin (gdf.filter (fun f => f.geom.intersects bb)) var ∧
      (update_map gdf defLat defLon var dynamic rel true
          (some ((gdf.filter (fun f => f.geom.intersects bb)).map
            Feature.id))).zmax =
        colMax (gdf.filter (fun f => f.geom.intersects bb)) var := by
  obtain ⟨hne, hreg, hscale⟩ := capture_bbox_shape gdf r var out bb hout hbb
  refine ⟨hreg, hscale, ?_⟩
  intro defLat defLon dynamic rel
  rw [update_map_locked gdf defLat defLon var dynamic rel _ hnd hne]
  exact ⟨rfl, rfl, rfl⟩

/-- Witness for C9: the concrete fallback capture on `gdfOne` at center
`(0, 0)`, zoom 4, and the render it pins. -/
theorem claim9_witness :
    (lock_or_reset_callback gdfOne false true (some rFbC) "a").regions =
      some ((gdfOne.filter (fun f => f.geom.intersects (lockBox 0 0 4))).map
        Feature.id) ∧
    (lock_or_reset_callback gdfOne false true (some rFbC) "a").scale =
      some ⟨colMin (gdfOne.filter
              (fun f => f.geom.intersects (lockBox 0 0 4))) "a",
            colMax (gdfOne.filter
              (fun f => f.geom.intersects (lockBox 0 0 4))) "a"⟩ ∧
    (update_map gdfOne 0 0 "a" false none true
        (some ((gdfOne.filter (fun f => f.geom.intersects (lockBox 0 0 4))).map
          Feature.id))).subset =
      gdfOne.filter (fun f => f.geom.intersects (lockBox 0 0 4)) ∧
    (update_map gdfOne 0 0 "a" false none true
        (some ((gdfOne.filter (fun f => f.geom.intersects (lockBox 0 0 4))).map
          Feature.id))).zmin =
      colMin (gdfOne.filter (fun f => f.geom.intersects (lockBox 0 0 4))) "a" ∧
    (update_map gdfOne 0 0 "a" false none true
        (some ((gdfOne.filter (fun f => f.geom.intersects (lockBox 0 0 4))).map
          Feature.id))).zmax =
      colMax (gdfOne.filter (fun f => f.geom.intersects (lockBox 0 0 4))) "a"
    := by
  obtain ⟨h1, h2, h3⟩ := claim9_fallback_region_snapshot gdfOne rFbC "a"
    (lock_or_reset_callback gdfOne false true (some rFbC) "a")
    (lockBox 0 0 4) (by decide) rfl (by rw [lockCallback_rFbC])
  obtain ⟨h4, h5, h6⟩ := h3 0 0 false none
  exact ⟨h1, h2, h4, h5, h6⟩

/-- Counterexample to C9 as stated: in a Locked state whose snapshot carries
a region but no feature-id set, the render does not intersect the store
against the stored region at all — it shows the full store (the `locked-bbox`
store is never read by `update_map`) with the full-dataset range. -/
theorem claim9_counterexample :
    c9hypState.lockOn = true ∧
    c9hypState.lockedBbox = some ⟨0, 0, 1, 1⟩ ∧
    c9hypState.regions = none ∧
    gdfTwo.filter (fun f => f.geom.intersects (⟨0, 0, 1, 1⟩ : BBox)) =
      [gdfTwoF0] ∧
    (renderOf gdfTwo 0 0 c9hypState).subset = gdfTwo ∧
    ¬ ((gdfTwo : List Feature) = [gdfTwoF0]) ∧
    (renderOf gdfTwo 0 0 c9hypState).zmin = 1 ∧
    (renderOf gdfTwo 0 0 c9hypState).zmax = 2 := by
  refine ⟨rfl, rfl, rfl, by decide, by decide, by decide, by decide, by decide⟩

/-- The fallback raises (missing center) on the fully malformed payload. -/
theorem lockFallback_rBadC : lockFallback gdfOne rBadC "a" = none := by
  simp [lockFallback, rBadC, ite_self]

/-- The whole try-block raises on the fully malformed payload. -/
theorem lockTryBody_rBadC : lockTryBody gdfOne rBadC "a" = none := by
  have hc : truthyCoords rBadC = none := rfl
  simp [lockTryBody, hc, lockFallback_rBadC]

/-- The fallback raises (missing center) on the far-ring payload too. -/
theorem lockFallback_rEmptyC : lockFallback gdfOne rEmptyC "a" = none := by
  simp [lockFallback, rEmptyC, ite_self]

/-- On the far-away ring the polygon filter is empty and the fallback then
raises on the missing center: the try-block raises, so no capture occurs. -/
theorem lockTryBody_rEmptyC : lockTryBody gdfOne rEmptyC "a" = none := by
  have hc : truthyCoords rEmptyC = some farCoords := rfl
  have hpoly : gdfOne.filter
      (fun f => f.geom.intersects (polyBox farCoords)) = [] := by decide
  simp [lockTryBody, hc, hpoly, lockFallback_rEmptyC]

/-- On `rEmptyFull` both the exact-ring filter and the fallback-box filter
are empty, so the try-block completes with no capture. -/
theorem lockTryBody_rEmptyFull :
    lockTryBody gdfOne rEmptyFull "a" = some noCapture := by
  have hint : gdfOneF.geom.intersects (lockBox 51 51 4) = false := by
    simp only [BBox.intersects, lockBox, bufferDegLock_four, gdfOneF,
      decide_eq_false_iff_not]
    norm_num
  have hfil : gdfOne.filter
      (fun f => f.geom.intersects (lockBox 51 51 4)) = [] := by
    simp [gdfOne, List.filter, hint]
  have hfb : lockFallback gdfOne rEmptyFull "a" = some noCapture := by
    norm_num [lockFallback, rEmptyFull, hfil]
  have hc : truthyCoords rEmptyFull = some farCoords := rfl
  have hpoly : gdfOne.filter
      (fun f => f.geom.intersects (polyBox farCoords)) = [] := by decide
  have hlen : ¬ farCoords.length < 3 := by decide
  simp [lockTryBody, hc, hpoly, hfb, hlen]

/-- C2 (amended): the snapshot is captured at the lock-toggle event itself,
from the most recent stored viewport: (1) if the stored ring's intersection
is non-empty, the toggle event immediately stores the id set and range;
(2) if the try-block completes with an empty subset, no snapshot is stored
and the mode stays Locked; (3) later viewport events never run the lock
callback, so they never capture a snapshot; (4) while Locked with no
snapshot (and Dynamic off) the render equals the Free-mode output. -/
theorem claim2_lock_capture_timing (gdf : List Feature) :
    (∀ (s : AppState) (r : Relayout) (cs : List (ℚ × ℚ)),
        s.lockOn = false → s.relayout = some r →
        truthyCoords r = some cs → ¬ cs.length < 3 →
        gdf.filter (fun f => f.geom.intersects (polyBox cs)) ≠ [] →
        (stepEv gdf s .toggleLock).regions =
          some ((gdf.filter (fun f => f.geom.intersects (polyBox cs))).map
            Feature.id) ∧
        (stepEv gdf s .toggleLock).scale =
          some ⟨colMin (gdf.filter
                  (fun f => f.geom.intersects (polyBox cs))) s.var,
                colMax (gdf.filter
                  (fun f => f.geom.intersects (polyBox cs))) s.var⟩ ∧
        (stepEv gdf s .toggleLock).lockOn = true) ∧
    (∀ (s : AppState) (r : Relayout),
        s.lockOn = false → s.relayout = some r →
        lockTryBody gdf r s.var = some noCapture →
        (stepEv gdf s .toggleLock).lockOn = true ∧
        (stepEv gdf s .toggleLock).regions = none ∧
        (stepEv gdf s .toggleLock).scale = none) ∧
    (∀ (s : AppState) (r : Relayout),
        (stepEv gdf s (.viewport r)).regions = s.regions ∧
        (stepEv gdf s (.viewport r)).scale = s.scale ∧
        (stepEv gdf s (.viewport r)).lockedBbox = s.lockedBbox ∧
        (stepEv gdf s (.viewport r)).lockOn = s.lockOn) ∧
    (∀ (defLat defLon : ℚ) (s : AppState),
        s.regions = none → s.dynamicOn = false →
        (renderOf gdf defLat defLon s).subset = gdf ∧
        (renderOf gdf defLat defLon s).zmin = colMin gdf s.var ∧
        (renderOf gdf defLat defLon s).zmax = colMax gdf s.var) := by
  refine ⟨?_, ?_, ?_, ?_⟩
  · intro s r cs hl hv hcs hlen hne
    have hie := isEmpty_false_of_ne_nil hne
    simp [stepEv, hl, hv, applyLockOut, lock_or_reset_callback, lockTryBody,
      hcs, hlen, hie]
  · intro s r hl hv hnc
    simp [stepEv, hl, hv, applyLockOut, lock_or_reset_callback, hnc,
      noCapture]
  · intro s r
    exact ⟨rfl, rfl, rfl, rfl⟩
  · intro defLat defLon s hreg hdyn
    simp [renderOf, update_map, hreg, hdyn, subsetRangeOpt, finalRange]

/-- Witness for C2: all four parts at concrete states over `gdfOne` — an
immediate capture at the toggle, a no-capture toggle over an empty region, a
viewport event that touches no store, and the Free-equal render while Locked
with no snapshot. -/
theorem claim2_witness :
    ((stepEv gdfOne s1C2 .toggleLock).regions =
        some ((gdfOne.filter
          (fun f => f.geom.intersects (polyBox goodCoords))).map Feature.id) ∧
      (stepEv gdfOne s1C2 .toggleLock).scale =
        some ⟨colMin (gdfOne.filter
                (fun f => f.geom.intersects (polyBox goodCoords))) s1C2.var,
              colMax (gdfOne.filter
                (fun f => f.geom.intersects (polyBox goodCoords))) s1C2.var⟩ ∧
      (stepEv gdfOne s1C2 .toggleLock).lockOn = true) ∧
    ((stepEv gdfOne s2C2 .toggleLock).lockOn = true ∧
      (stepEv gdfOne s2C2 .toggleLock).regions = none ∧
      (stepEv gdfOne s2C2 .toggleLock).scale = none) ∧
    ((stepEv gdfOne s1C2 (.viewport rEmptyC)).regions = s1C2.regions ∧
      (stepEv gdfOne s1C2 (.viewport rEmptyC)).scale = s1C2.scale ∧
      (stepEv gdfOne s1C2 (.viewport rEmptyC)).lockedBbox = s1C2.lockedBbox ∧
      (stepEv gdfOne s1C2 (.viewport rEmptyC)).lockOn = s1C2.lockOn) ∧
    ((renderOf gdfOne 0 0 sLockedNoSnap).subset = gdfOne ∧
      (renderOf gdfOne 0 0 sLockedNoSnap).zmin = colMin gdfOne
        sLockedNoSnap.var ∧
      (renderOf gdfOne 0 0 sLockedNoSnap).zmax = colMax gdfOne
        sLockedNoSnap.var) := by
  obtain ⟨h1, h2, h3, h4⟩ := claim2_lock_capture_timing gdfOne
  exact ⟨h1 s1C2 rGoodC goodCoords rfl rfl (by decide) (by decide) (by decide),
         h2 s2C2 rEmptyFull rfl rfl lockTryBody_rEmptyFull,
         h3 s1C2 rEmptyC,
         h4 0 0 sLockedNoSnap rfl rfl⟩

/-- Step-by-step evaluation of the three-event trace: far-region lock
engagement captures nothing, and the later covering viewport event only
replaces the stored relayout. -/
theorem c2trace_eval :
    c2trace = ⟨"a", false, true, some rGoodC, none, none, none⟩ := by
  have h2 : stepEv gdfOne ⟨"a", false, false, some rEmptyC, none, none, none⟩
      UiEvent.toggleLock =
      ⟨"a", false, true, some rEmptyC, none, none, none⟩ := by
    simp [stepEv, applyLockOut, lock_or_reset_callback, lockTryBody_rEmptyC,
      noCapture]
  have h1 : stepEv gdfOne (initState "a") (UiEvent.viewport rEmptyC) =
      ⟨"a", false, false, some rEmptyC, none, none, none⟩ := rfl
  have h3 : stepEv gdfOne ⟨"a", false, true, some rEmptyC, none, none, none⟩
      (UiEvent.viewport rGoodC) =
      ⟨"a", false, true, some rGoodC, none, none, none⟩ := rfl
  unfold c2trace
  rw [List.foldl_cons, h1, List.foldl_cons, h2, List.foldl_cons, h3,
    List.foldl_nil]

/-- Counterexample to C2 as stated: engage the lock while the stored viewport
has an empty intersection, then pan to a covering viewport.  The later
viewport event produces a non-empty subset, yet no snapshot is captured —
`locked-regions` and `locked-colour-scale` stay `None` — because viewport
events never re-run the lock callback. -/
theorem claim2_counterexample :
    gdfOne.filter (fun f => f.geom.intersects (polyBox goodCoords)) ≠ [] ∧
    c2trace.relayout = some rGoodC ∧
    c2trace.lockOn = true ∧
    c2trace.regions = none ∧
    c2trace.scale = none := by
  rw [c2trace_eval]
  exact ⟨by decide, rfl, rfl, rfl, rfl⟩

/-- C6: in any reachable state, if engaging the lock hits an error in
region/polygon construction (the try-block raises, e.g. on missing center
coordinates), the event is absorbed by the `except` clause — no exception
escapes the callback — and the stored snapshot state after the event equals
the stored snapshot state before it. -/
theorem claim6_lock_error_no_snapshot_update (gdf : List Feature)
    (s : AppState) (r : Relayout) (hr : Reachable gdf s)
    (hl : s.lockOn = false) (hv : s.relayout = some r)
    (herr : lockTryBody gdf r s.var = none) :
    (stepEv gdf s .toggleLock).scale = s.scale ∧
    (stepEv gdf s .toggleLock).lockedBbox = s.lockedBbox ∧
    (stepEv gdf s .toggleLock).regions = s.regions ∧
    (stepEv gdf s .toggleLock).lockOn = true := by
  obtain ⟨h1, h2, h3⟩ := reachable_lockOff_clear gdf hr hl
  simp [stepEv, hl, hv, applyLockOut, lock_or_reset_callback, herr,
    noCapture, h1, h2, h3]

/-- Witness for C6: engaging the lock right after a malformed viewport event
(no center anywhere in the payload) leaves every store exactly as before. -/
theorem claim6_witness :
    (stepEv gdfOne c6state .toggleLock).scale = c6state.scale ∧
    (stepEv gdfOne c6state .toggleLock).lockedBbox = c6state.lockedBbox ∧
    (stepEv gdfOne c6state .toggleLock).regions = c6state.regions ∧
    (stepEv gdfOne c6state .toggleLock).lockOn = true :=
  claim6_lock_error_no_snapshot_update gdfOne c6state rBadC
    (Reachable.step _ _ (Reachable.init "a")) rfl rfl lockTryBody_rBadC

/-- C7 (amended): when the relayout payload is missing its center and zoom
fields, `update_map` falls back to the dataset-derived default center and
zoom 4 — without raising — and (in Free mode) still renders the full dataset
with the full-dataset range. -/
theorem claim7_malformed_viewport_defaults (gdf : List Feature)
    (defLat defLon : ℚ) (var : String) (r : Relayout)
    (h1 : r.centerFlatLon = none ∨ r.centerFlatLat = none)
    (h2 : r.centerDict = none ∨ r.centerDict = some ⟨none, none⟩)
    (h3 : r.zoom = none) :
    extractCenterZoom defLat defLon (some r) = (defLat, defLon, 4) ∧
    update_map gdf defLat defLon var false (some r) false none =
      ⟨gdf, colMin gdf var, colMax gdf var, defLat, defLon, 4⟩ := by
  have hex : extractCenterZoom defLat defLon (some r) =
      (defLat, defLon, 4) := by
    cases hfl : r.centerFlatLon <;> cases hfa : r.centerFlatLat <;>
      rcases h2 with h2 | h2 <;>
        simp_all [extractCenterZoom]
  refine ⟨hex, ?_⟩
  simp [update_map, hex, finalRange]

/-- Witness for C7 at the concrete malformed payload and defaults `(2, 3)`. -/
theorem claim7_witness :
    extractCenterZoom 2 3 (some rBadC) = (2, 3, 4) ∧
    update_map gdfOne 2 3 "a" false (some rBadC) false none =
      ⟨gdfOne, colMin gdfOne "a", colMax gdfOne "a", 2, 3, 4⟩ :=
  claim7_malformed_viewport_defaults gdfOne 2 3 "a" rBadC (Or.inl rfl)
    (Or.inl rfl) rfl

/-- Counterexample to C7 as stated: after a valid viewport event resolving to
center `(lat, lon) = (12, 10)`, a malformed viewport event resolves to the
dataset default `(0, 0)` — the previous valid resolved region is not reused
(nothing stores it). -/
theorem claim7_counterexample :
    extractCenterZoom 0 0 (some rValidC) = (12, 10, 5) ∧
    c7state.relayout = some rBadC ∧
    (renderOf gdfOne 0 0 c7state).centerLat = 0 ∧
    (renderOf gdfOne 0 0 c7state).centerLon = 0 ∧
    ¬ ((12 : ℚ) = 0 ∧ (10 : ℚ) = 0) := by
  refine ⟨by decide, rfl, by decide, by decide, by decide⟩
